import Mathlib

/-
  Verification of `organizador_python.py`, a small file organizer.

  Shallow embedding conventions:
  * Python dicts (which iterate in insertion order) are association lists
    `List (String × List String)`; their list order is the configured
    declaration order.
  * Filesystem paths are lists of name components relative to the root
    directory; the root itself also has a display string `rootStr` standing
    for `str(self.carpeta_origen)`, used by the substring checks the code
    performs on `str(path)`.
  * Each `print(...)` call contributes one string to a `salida` list, so the
    console output is an observable value of the embedding.
  * An uncaught Python exception is an `Option String` error field (or an
    `Except` for the single primitives); side effects performed before the
    exception propagates are retained, as on a real filesystem.
-/

namespace Organizador

/-- Character-list infix test: `needle` occurs contiguously in the haystack. -/
def esInfijoDe (needle : List Char) : List Char → Bool
  | [] => needle.isEmpty
  | c :: resto => needle.isPrefixOf (c :: resto) || esInfijoDe needle resto

/-- Python's substring test `needle in hay` on strings. -/
def strContains (hay needle : String) : Bool :=
  esInfijoDe needle.toList hay.toList

/-- `str.lower()`: lower-case every character (the configured keywords and
file names are ASCII, where this agrees with Python). -/
def lowerStr (s : String) : String :=
  String.mk (s.toList.map Char.toLower)

/-- `pathlib` stem/suffix split of a file name: the suffix starts at the last
dot, provided that dot is neither the first nor the last character
(`i = name.rfind('.'); 0 < i < len(name) - 1`). -/
def splitStemSuffix (name : String) : String × String :=
  let cs := name.toList
  match cs.reverse.findIdx? (fun c => c == '.') with
  | none => (name, "")
  | some j =>
    let i := cs.length - 1 - j
    if 0 < i ∧ i < cs.length - 1 then
      (String.mk (cs.take i), String.mk (cs.drop i))
    else (name, "")

/-- `Path.suffix` of a file name. -/
def sufijo (name : String) : String := (splitStemSuffix name).2

/-- Inner loop of `identificar_materia`: scan one subject's keyword list in
configured order, short-circuiting on the first keyword `palabra` with
`palabra.lower() in nombre_lower`. -/
def buscarClave (nombre_lower : String) : List String → Bool
  | [] => false
  | palabra :: resto =>
    if strContains nombre_lower (lowerStr palabra) then true
    else buscarClave nombre_lower resto

/-- Outer loop of `identificar_materia`: scan the subjects in configured
declaration order and return the first one whose keyword list matches. -/
def identificarAux (nombre_lower : String) :
    List (String × List String) → Option String
  | [] => none
  | (materia, palabras) :: resto =>
    if buscarClave nombre_lower palabras then some materia
    else identificarAux nombre_lower resto

/-- `identificar_materia(nombre_archivo)`: lower-case the file name once, then
return the first subject with a matching keyword, else `None`. -/
def identificar_materia (materias : List (String × List String))
    (nombre_archivo : String) : Option String :=
  identificarAux (lowerStr nombre_archivo) materias

/-- Spec-side definition of the subject matcher, written from the spec's
words: the first subject, in declared order, having a keyword that is a
case-insensitive substring of the filename, or none. -/
def match_subject (materias : List (String × List String)) (F : String) :
    Option String :=
  (materias.find? (fun s => s.2.any (fun k => strContains (lowerStr F) (lowerStr k)))).map
    Prod.fst

/-- `self.tipos_archivos`: the fixed extension catalog, in its declaration
order. -/
def tipos_archivos : List (String × List String) :=
  [("pdf", [".pdf"]),
   ("words", [".doc", ".docx"]),
   ("powerpoint", [".ppt", ".pptx"]),
   ("imagenes", [".jpg", ".jpeg", ".png", ".gif", ".bmp", ".tiff"]),
   ("diagramas", [".vsd", ".vsdx", ".drawio", ".lnk", ".xml"]),
   ("comprimidos", [".zip", ".rar", ".7z", ".tar", ".gz"]),
   ("codigo", [".py", ".java", ".c", ".cpp", ".js", ".html", ".css"])]

/-- Loop of `obtener_tipo_archivo`: scan the catalog in declaration order for
the first type whose extension list contains `extension.lower()`. -/
def tipoAux (ext_lower : String) : List (String × List String) → Option String
  | [] => none
  | (tipo, extensiones) :: resto =>
    if extensiones.contains ext_lower then some tipo
    else tipoAux ext_lower resto

/-- `obtener_tipo_archivo(extension)`. -/
def obtener_tipo_archivo (extension : String) : Option String :=
  tipoAux (lowerStr extension) tipos_archivos

/-- Spec-side definition of the type lookup, written from the spec's words:
the extension is matched case-insensitively against each tag's extension set
in the catalog's fixed declaration order; the first containing tag wins. -/
def classify_extension (E : String) : Option String :=
  (tipos_archivos.find? (fun t => t.2.contains (lowerStr E))).map Prod.fst

/-- `self.estructura_default`. -/
def estructura_default : List String := ["pdf", "words", "powerpoint"]

/-- `obtener_carpetas_para_materia(materia)`: the subject's custom folder list
when one was configured, else the default. -/
def obtener_carpetas_para_materia
    (estructura_personalizada : List (String × List String))
    (materia : String) : List String :=
  match estructura_personalizada.find? (fun e => e.1 == materia) with
  | some e => e.2
  | none => estructura_default

/-- Filesystem state. `dirs` and `files` hold the existing directories and
regular files as component paths relative to the root, in enumeration order
(standing for the order `os.scandir`-based iteration yields entries).
`rootStr` is `str(self.carpeta_origen)` and `rootExists` whether the root
directory itself exists. -/
structure Fs where
  rootStr : String
  rootExists : Bool
  dirs : List (List String)
  files : List (List String)
  deriving DecidableEq, Repr

/-- `str(path)` for a path given by its components relative to the root. -/
def pathStr (fs : Fs) (p : List String) : String :=
  if p.isEmpty then fs.rootStr
  else fs.rootStr ++ "/" ++ String.intercalate "/" p

/-- Does `p` exist as a directory (`[]` is the root itself)? -/
def dirExists (fs : Fs) (p : List String) : Bool :=
  if p.isEmpty then fs.rootExists else fs.dirs.contains p

/-- Does `p` exist as a regular file? -/
def fileExists (fs : Fs) (p : List String) : Bool :=
  fs.files.contains p

/-- `Path.exists()`: true for directories and files alike. -/
def pathExists (fs : Fs) (p : List String) : Bool :=
  dirExists fs p || fileExists fs p

/-- `path.name`: the last component. -/
def nombreDe (p : List String) : String := p.getLastD ""

/-- `shutil.move(src, dst)` on a POSIX filesystem: fails when the source is
missing or the destination's parent directory does not exist; moving onto an
existing directory places the source inside it; moving onto an existing
regular file silently replaces that file. -/
def shutilMove (fs : Fs) (src dst : List String) : Except String Fs :=
  if fileExists fs src = false then .error "FileNotFoundError"
  else
    let dst' := if dirExists fs dst then dst ++ [nombreDe src] else dst
    if dirExists fs dst'.dropLast then
      .ok { fs with
              files := ((fs.files.erase src).filter (fun q => q ≠ dst')) ++ [dst'] }
    else .error "FileNotFoundError"

/-- `Path.mkdir(exist_ok=True)`: no-op on an existing directory, raises
`FileExistsError` when a non-directory occupies the path, raises
`FileNotFoundError` when the parent is missing. -/
def mkdirExistOk (fs : Fs) (p : List String) : Except String Fs :=
  if dirExists fs p then .ok fs
  else if fileExists fs p then .error "FileExistsError"
  else if dirExists fs p.dropLast then
    .ok { fs with dirs := fs.dirs ++ [p] }
  else .error "FileNotFoundError"

/-- Is the directory `p` empty (`not any(p.iterdir())`)? -/
def carpetaVacia (fs : Fs) (p : List String) : Bool :=
  !(fs.dirs.any (fun q => q.dropLast == p) || fs.files.any (fun q => q.dropLast == p))

/-- One result state of the flattener `mover_archivos_de_subcarpetas`:
filesystem, the two counters it maintains, and its printed lines. -/
structure ResMover where
  fs : Fs
  archivos_movidos : Nat
  carpetas_eliminadas : Nat
  salida : List String
  deriving DecidableEq, Repr

/-- The collision loop of the flattener: starting from `contador`, return the
first `root/<base>_<n><ext>` that does not exist.  `fuel` only bounds the
recursion; every call supplies more fuel than there are existing paths, and
the candidate names are pairwise distinct, so the fuel never runs out. -/
def sufijoLibre (fs : Fs) (base ext : String) : Nat → Nat → List String
  | 0, contador => [base ++ "_" ++ toString contador ++ ext]
  | fuel + 1, contador =>
    let cand := [base ++ "_" ++ toString contador ++ ext]
    if pathExists fs cand then sufijoLibre fs base ext fuel (contador + 1)
    else cand

/-- The success line the flattener prints for one moved file
(`f"  ✓ Movido: {item.relative_to(origen)} → {destino.name}"`). -/
def lineaMovido (item destino : List String) : String :=
  "  ✓ Movido: " ++ String.intercalate "/" item ++ " → " ++ nombreDe destino

/-- Move one nested file up to the root (body of the flattener's first loop):
skip it when its parent's path string contains a configured subject name,
otherwise pick a collision-free destination name and move, counting a success
and logging an error line on failure. -/
def moverUno (materias : List (String × List String))
    (st : Fs × Nat × List String) (item : List String) :
    Fs × Nat × List String :=
  let fs := st.1
  if materias.any (fun mp => strContains (pathStr fs item.dropLast) mp.1) then st
  else
    let nombre := nombreDe item
    let destino0 : List String := [nombre]
    let destino :=
      if pathExists fs destino0 then
        let se := splitStemSuffix nombre
        sufijoLibre fs se.1 se.2 (fs.files.length + fs.dirs.length + 2) 1
      else destino0
    match shutilMove fs item destino with
    | .ok fs' =>
      (fs', st.2.1 + 1, st.2.2 ++ [lineaMovido item destino])
    | .error e =>
      (fs, st.2.1, st.2.2 ++ [s!"  ✗ Error moviendo {nombre}: {e}"])

/-- Stable insertion into a list sorted by decreasing path depth; a new
element goes after all elements of equal depth, mirroring the stability of
Python's `sorted(..., key=lambda p: len(p.parts), reverse=True)`. -/
def insertarPorProfundidad (p : List String) :
    List (List String) → List (List String)
  | [] => [p]
  | q :: qs =>
    if p.length ≤ q.length then q :: insertarPorProfundidad p qs
    else p :: q :: qs

/-- Stable sort by decreasing path depth. -/
def ordenarPorProfundidadDesc (l : List (List String)) : List (List String) :=
  l.foldl (fun acc p => insertarPorProfundidad p acc) []

/-- Body of the flattener's removal loop: skip entries that are no longer
directories, directories named exactly as a subject, and directories whose
parent path string contains a subject name; remove the directory when it is
empty at the time of checking. -/
def eliminarUna (materias : List (String × List String))
    (st : Fs × Nat × List String) (carpeta : List String) :
    Fs × Nat × List String :=
  let fs := st.1
  if (fs.dirs.contains carpeta) = false then st
  else if materias.any (fun mp => mp.1 == nombreDe carpeta) then st
  else if materias.any (fun mp => strContains (pathStr fs carpeta.dropLast) mp.1) then st
  else if carpetaVacia fs carpeta then
    let rel := String.intercalate "/" carpeta
    ({ fs with dirs := fs.dirs.erase carpeta }, st.2.1 + 1,
     st.2.2 ++ [s!"  ✓ Eliminada: {rel}"])
  else st

/-- `mover_archivos_de_subcarpetas()`: move every file whose parent is not the
root itself up to the root (with collision suffixes), then remove emptied
directories deepest-first.  The iteration snapshots are taken from the
filesystem state as the corresponding `rglob` enumerations would observe it. -/
def mover_archivos_de_subcarpetas (materias : List (String × List String))
    (fs : Fs) : ResMover :=
  let anidados := fs.files.filter (fun p => 2 ≤ p.length)
  let paso1 := anidados.foldl (moverUno materias) (fs, 0, [])
  let ordenadas := ordenarPorProfundidadDesc paso1.1.dirs
  let paso2 := ordenadas.foldl (eliminarUna materias) (paso1.1, 0, [])
  { fs := paso2.1
    archivos_movidos := paso1.2.1
    carpetas_eliminadas := paso2.2.1
    salida :=
      ["\nMoviendo archivos de subcarpetas a la carpeta principal..."]
        ++ paso1.2.2
        ++ ["\nEliminando carpetas vacías..."]
        ++ paso2.2.2
        ++ [s!"\n  Archivos movidos: {paso1.2.1}",
            s!"  Carpetas eliminadas: {paso2.2.1}"] }

/-- State after a structure-building step: filesystem, printed lines, and the
uncaught exception if one propagated. -/
structure Paso where
  fs : Fs
  salida : List String
  error : Option String
  deriving DecidableEq, Repr

/-- Inner loop of `crear_estructura_carpetas`: create one type subfolder per
allowed type of the subject, logging each one. -/
def crearTiposAux (materia : String) (fs : Fs) (out : List String) :
    List String → Paso
  | [] => { fs := fs, salida := out, error := none }
  | tipo :: resto =>
    match mkdirExistOk fs [materia, tipo] with
    | .ok fs' =>
      crearTiposAux materia fs' (out ++ [s!"  ✓ Creada: {materia}/{tipo}"]) resto
    | .error e => { fs := fs, salida := out, error := some e }

/-- Outer loop of `crear_estructura_carpetas` over the configured subjects. -/
def crearEstructuraAux (ep : List (String × List String)) (fs : Fs)
    (out : List String) : List String → Paso
  | [] => { fs := fs, salida := out, error := none }
  | materia :: resto =>
    match mkdirExistOk fs [materia] with
    | .error e => { fs := fs, salida := out, error := some e }
    | .ok fs1 =>
      let r := crearTiposAux materia fs1 out (obtener_carpetas_para_materia ep materia)
      match r.error with
      | some e => { fs := r.fs, salida := r.salida, error := some e }
      | none => crearEstructuraAux ep r.fs r.salida resto

/-- `crear_estructura_carpetas()`: for every configured subject create the
subject folder and its allowed type subfolders (`mkdir(exist_ok=True)`). -/
def crear_estructura_carpetas (materias ep : List (String × List String))
    (fs : Fs) : Paso :=
  crearEstructuraAux ep fs ["Creando estructura de carpetas..."]
    (materias.map Prod.fst)

/-- The configuration handed to `OrganizadorArchivos.__init__` (beyond the
root path): the subject→keywords mapping and the optional custom structure
mapping, both in declaration order.  The constructor stores them and performs
no filesystem access and no validation. -/
structure Cfg where
  materias : List (String × List String)
  estructura_personalizada : List (String × List String)
  deriving DecidableEq, Repr

/-- Loop state of the organizer's dispatch pass: filesystem, the counter
`archivos_organizados`, the list `archivos_no_organizados` (which holds bare
file names), and the printed lines. -/
structure EstadoOrg where
  fs : Fs
  organizados : Nat
  no_organizados : List String
  salida : List String
  deriving DecidableEq, Repr

/-- Dispatch of one top-level file (body of the organizer's loop): resolve
subject and type; when both resolve and the type is allowed, move the file to
`root/<materia>/<tipo>/<nombre>` (recording a move failure as unplaced);
otherwise record the file as unplaced with the applicable printed reason. -/
def procesarArchivo (cfg : Cfg) (st : EstadoOrg) (nombre : String) : EstadoOrg :=
  let materia := identificar_materia cfg.materias nombre
  let tipo := obtener_tipo_archivo (sufijo nombre)
  match materia, tipo with
  | some m, some t =>
    let carpetas := obtener_carpetas_para_materia cfg.estructura_personalizada m
    if t ∈ carpetas then
      match shutilMove st.fs [nombre] [m, t, nombre] with
      | .ok fs' =>
        { st with fs := fs', organizados := st.organizados + 1,
                  salida := st.salida ++ [s!"  ✓ {nombre} → {m}/{t}/"] }
      | .error e =>
        { st with no_organizados := st.no_organizados ++ [nombre],
                  salida := st.salida ++ [s!"  ✗ Error moviendo {nombre}: {e}"] }
    else
      { st with no_organizados := st.no_organizados ++ [nombre],
                salida := st.salida ++
                  [s!"  ⚠ {nombre} no organizado (\x27{m}\x27 no tiene carpeta \x27{t}\x27)"] }
  | _, _ =>
    let motivo :=
      (if materia.isNone then ["materia no identificada"] else []) ++
      (if tipo.isNone then ["tipo de archivo no reconocido"] else [])
    let motivoStr := String.intercalate ", " motivo
    { st with no_organizados := st.no_organizados ++ [nombre],
              salida := st.salida ++ [s!"  ⚠ {nombre} no organizado ({motivoStr})"] }

/-- The summary block the organizer prints at the end of a run. -/
def resumenLines (organizados : Nat) (no_organizados : List String) :
    List String :=
  ["\n" ++ String.mk (List.replicate 60 '='),
   "Resumen de organización:",
   s!"  Archivos organizados: {organizados}",
   s!"  Archivos sin organizar: {no_organizados.length}"]
    ++ (if no_organizados.isEmpty then []
        else ["\nArchivos que no se pudieron organizar:"]
          ++ no_organizados.map (fun a => s!"  - {a}"))

/-- Observable outcome of one `organizar_archivos` run: final filesystem, the
organizer's two accumulators, every printed line, and the uncaught exception
if one propagated (the Python method itself returns `None`). -/
structure Resultado where
  fs : Fs
  archivos_organizados : Nat
  archivos_no_organizados : List String
  salida : List String
  error : Option String
  deriving DecidableEq, Repr

/-- `organizar_archivos(mover_de_subcarpetas, crear_estructura)`: optionally
flatten, optionally build the folder structure, then dispatch every immediate
child of the root that is a file.  A missing root makes `rglob` enumerate
nothing (so the flattener completes as a no-op), makes the structure builder's
first `mkdir` raise, and makes the top-level `iterdir` scan raise. -/
def organizar_archivos (cfg : Cfg) (fs : Fs)
    (mover_de_subcarpetas crear_estructura : Bool) : Resultado :=
  let paso1 :=
    if mover_de_subcarpetas then
      let r := mover_archivos_de_subcarpetas cfg.materias fs
      (r.fs, r.salida)
    else (fs, [])
  let paso2 :=
    if crear_estructura then
      crear_estructura_carpetas cfg.materias cfg.estructura_personalizada paso1.1
    else { fs := paso1.1, salida := [], error := none }
  match paso2.error with
  | some e =>
    { fs := paso2.fs, archivos_organizados := 0, archivos_no_organizados := [],
      salida := paso1.2 ++ paso2.salida, error := some e }
  | none =>
    let out0 := paso1.2 ++ paso2.salida ++ ["\nOrganizando archivos..."]
    if paso2.fs.rootExists = false then
      { fs := paso2.fs, archivos_organizados := 0, archivos_no_organizados := [],
        salida := out0, error := some "FileNotFoundError" }
    else
      let nombres :=
        (paso2.fs.files.filter (fun p => p.length == 1)).map (fun p => p.headD "")
      let fin := nombres.foldl (procesarArchivo cfg)
        { fs := paso2.fs, organizados := 0, no_organizados := [], salida := out0 }
      { fs := fin.fs, archivos_organizados := fin.organizados,
        archivos_no_organizados := fin.no_organizados,
        salida := fin.salida ++ resumenLines fin.organizados fin.no_organizados,
        error := none }

lemma buscarClave_eq_any (nl : String) (ps : List String) :
    buscarClave nl ps = ps.any (fun p => strContains nl (lowerStr p)) := by
  induction ps with
  | nil => rfl
  | cons p resto ih =>
    simp only [buscarClave, List.any_cons]
    by_cases h : strContains nl (lowerStr p) = true
    · simp [h]
    · simp only [Bool.not_eq_true] at h
      simp [h, ih]

/-- C1: the subject matcher lower-cases the filename once and returns the
first subject, in configured declaration order, having a keyword that is a
case-insensitive substring of the filename (its keywords scanned in order,
short-circuiting on the first hit), and returns none when no subject matches:
the loop implementation `identificar_materia` coincides with the declarative
first-match description `match_subject` taken from the spec. -/
theorem C1_identificar_materia_primera_coincidencia
    (materias : List (String × List String)) (F : String) :
    identificar_materia materias F = match_subject materias F := by
  show identificarAux (lowerStr F) materias = match_subject materias F
  induction materias with
  | nil => rfl
  | cons mp resto ih =>
    obtain ⟨m, ps⟩ := mp
    simp only [identificarAux, match_subject, buscarClave_eq_any]
    by_cases h : ps.any (fun k => strContains (lowerStr F) (lowerStr k)) = true
    · simp [List.find?_cons, h]
    · simp only [Bool.not_eq_true] at h
      simpa [List.find?_cons, h] using ih

lemma tipoAux_eq_find? (el : String) (l : List (String × List String)) :
    tipoAux el l = (l.find? (fun t => t.2.contains el)).map Prod.fst := by
  induction l with
  | nil => rfl
  | cons tp resto ih =>
    obtain ⟨tipo, exts⟩ := tp
    simp only [tipoAux]
    by_cases h : el ∈ exts
    · simp [List.find?_cons, h]
    · simpa [List.find?_cons, h] using ih

/-- C2: the type lookup matches the lower-cased extension against each type
tag's extension list in the catalog's fixed declaration order and returns the
first tag containing it (none when no tag matches): the loop implementation
`obtener_tipo_archivo` coincides with the declarative description
`classify_extension` taken from the spec.  Both are pure functions of the
extension and the fixed catalog, so repeated calls trivially return the same
result. -/
theorem C2_obtener_tipo_archivo_primer_tag (E : String) :
    obtener_tipo_archivo E = classify_extension E := by
  show tipoAux (lowerStr E) tipos_archivos = _
  rw [tipoAux_eq_find?]
  rfl

/-- C9: the folder policy returns the subject's custom list when one was
configured (under the configured mapping's dict key uniqueness) and the fixed
default list `["pdf", "words", "powerpoint"]` — the spec's
pdf / word-documents / presentations — otherwise.  It is a pure lookup. -/
theorem C9_obtener_carpetas_politica
    (ep : List (String × List String)) (m : String) :
    (∀ l, (ep.map Prod.fst).Nodup → (m, l) ∈ ep →
        obtener_carpetas_para_materia ep m = l) ∧
    ((∀ l, (m, l) ∉ ep) →
        obtener_carpetas_para_materia ep m = ["pdf", "words", "powerpoint"]) := by
  constructor
  · intro l hnd hmem
    induction ep with
    | nil => simp at hmem
    | cons e resto ih =>
      obtain ⟨k, v⟩ := e
      simp only [List.map_cons, List.nodup_cons] at hnd
      rcases List.mem_cons.mp hmem with h | h
      · obtain ⟨hk, hv⟩ := Prod.mk.injEq .. ▸ h
        simp [obtener_carpetas_para_materia, List.find?_cons, hk.symm, ← hv]
      · have hk : k ≠ m := by
          intro rfl_k
          exact hnd.1 (rfl_k ▸ List.mem_map_of_mem Prod.fst h)
        have := ih hnd.2 h
        simpa [obtener_carpetas_para_materia, List.find?_cons, hk] using this
  · intro hno
    induction ep with
    | nil => rfl
    | cons e resto ih =>
      obtain ⟨k, v⟩ := e
      have hk : k ≠ m := by
        intro rfl_k
        exact hno v (rfl_k ▸ List.mem_cons_self _ _)
      have hrest : ∀ l, (m, l) ∉ resto := fun l hl => hno l (List.mem_cons_of_mem _ hl)
      simpa [obtener_carpetas_para_materia, List.find?_cons, hk] using ih hrest

/-- Witness for C9 at concrete inputs: a configured subject gets its custom
list, an unconfigured one the default. -/
theorem C9_obtener_carpetas_politica_witness :
    obtener_carpetas_para_materia [("Base de Datos", ["pdf", "comprimidos"])]
        "Base de Datos" = ["pdf", "comprimidos"] ∧
    obtener_carpetas_para_materia [("Base de Datos", ["pdf", "comprimidos"])]
        "Redes" = ["pdf", "words", "powerpoint"] :=
  ⟨(C9_obtener_carpetas_politica [("Base de Datos", ["pdf", "comprimidos"])]
      "Base de Datos").1 ["pdf", "comprimidos"] (by decide) (by decide),
   (C9_obtener_carpetas_politica [("Base de Datos", ["pdf", "comprimidos"])]
      "Redes").2 (by simp)⟩

/-- C3: flatten-then-organize round trip.  Starting from a root containing
only `A/B/report.pdf` and no subject or type folders, a full run (flatten and
build-structure enabled) with subject "Database" (keyword "report", default
allowed types, which include "pdf") ends with the file at
`Database/pdf/report.pdf` as the only file, with the emptied directories
`A/B` and `A` both removed in the single deepest-first pass, and no error. -/
theorem C3_aplanar_y_organizar_ida_y_vuelta :
    (organizar_archivos ⟨[("Database", ["report"])], []⟩
        ⟨"root", true, [["A"], ["A", "B"]], [["A", "B", "report.pdf"]]⟩
        true true).fs.files = [["Database", "pdf", "report.pdf"]] ∧
    ["A"] ∉ (organizar_archivos ⟨[("Database", ["report"])], []⟩
        ⟨"root", true, [["A"], ["A", "B"]], [["A", "B", "report.pdf"]]⟩
        true true).fs.dirs ∧
    ["A", "B"] ∉ (organizar_archivos ⟨[("Database", ["report"])], []⟩
        ⟨"root", true, [["A"], ["A", "B"]], [["A", "B", "report.pdf"]]⟩
        true true).fs.dirs ∧
    (organizar_archivos ⟨[("Database", ["report"])], []⟩
        ⟨"root", true, [["A"], ["A", "B"]], [["A", "B", "report.pdf"]]⟩
        true true).archivos_organizados = 1 ∧
    (organizar_archivos ⟨[("Database", ["report"])], []⟩
        ⟨"root", true, [["A"], ["A", "B"]], [["A", "B", "report.pdf"]]⟩
        true true).error = none := by
  decide

lemma mkdir_ok_of_dirExists {fs : Fs} {p : List String}
    (h : dirExists fs p = true) : mkdirExistOk fs p = .ok fs := by
  simp [mkdirExistOk, h]

lemma mkdir_ok_inv {fs fs' : Fs} {p : List String}
    (h : mkdirExistOk fs p = .ok fs') :
    fs'.rootStr = fs.rootStr ∧ fs'.rootExists = fs.rootExists ∧
    fs'.files = fs.files ∧
    (∀ q, dirExists fs q = true → dirExists fs' q = true) ∧
    dirExists fs' p = true := by
  unfold mkdirExistOk at h
  by_cases h1 : dirExists fs p = true
  · simp only [h1, if_true, Except.ok.injEq] at h
    subst h
    exact ⟨rfl, rfl, rfl, fun q hq => hq, h1⟩
  · simp only [h1] at h
    by_cases h2 : fileExists fs p = true
    · simp [h2] at h
    · simp only [h2] at h
      by_cases h3 : dirExists fs p.dropLast = true
      · simp only [h3, if_true, if_false, Bool.false_eq_true, Except.ok.injEq] at h
        subst h
        have hpne : p ≠ [] := by
          intro hp
          subst hp
          exact h1 h3
        refine ⟨rfl, rfl, rfl, ?_, ?_⟩
        · intro q hq
          unfold dirExists at hq ⊢
          by_cases hqe : q.isEmpty
          · simpa [hqe] using hq
          · simp only [hqe, if_false] at hq ⊢
            simp_all
        · unfold dirExists
          simp [hpne]
      · simp [h3] at h

lemma crearTipos_ok_inv (materia : String) :
    ∀ (tipos : List String) (fs : Fs) (out : List String),
    (crearTiposAux materia fs out tipos).error = none →
    (crearTiposAux materia fs out tipos).fs.rootStr = fs.rootStr ∧
    (crearTiposAux materia fs out tipos).fs.rootExists = fs.rootExists ∧
    (crearTiposAux materia fs out tipos).fs.files = fs.files ∧
    (∀ q, dirExists fs q = true →
        dirExists (crearTiposAux materia fs out tipos).fs q = true) ∧
    (∀ t ∈ tipos, dirExists (crearTiposAux materia fs out tipos).fs [materia, t] = true) := by
  intro tipos
  induction tipos with
  | nil =>
    intro fs out _
    exact ⟨rfl, rfl, rfl, fun q hq => hq, by simp⟩
  | cons tipo resto ih =>
    intro fs out herr
    rcases hmk : mkdirExistOk fs [materia, tipo] with e | fs1
    · rw [crearTiposAux, hmk] at herr
      simp at herr
    · rw [crearTiposAux, hmk] at herr ⊢
      obtain ⟨hs, hr, hf, hmono, hp⟩ := mkdir_ok_inv hmk
      obtain ⟨ihs, ihr, ihf, ihmono, ihall⟩ := ih fs1 _ herr
      refine ⟨ihs.trans hs, ihr.trans hr, ihf.trans hf, ?_, ?_⟩
      · intro q hq
        exact ihmono q (hmono q hq)
      · intro t ht
        rcases List.mem_cons.mp ht with h | h
        · subst h
          exact ihmono _ hp
        · exact ihall t h

lemma crearTipos_noop (materia : String) :
    ∀ (tipos : List String) (fs : Fs) (out : List String),
    (∀ t ∈ tipos, dirExists fs [materia, t] = true) →
    (crearTiposAux materia fs out tipos).fs = fs ∧
    (crearTiposAux materia fs out tipos).error = none := by
  intro tipos
  induction tipos with
  | nil => intro fs out _; exact ⟨rfl, rfl⟩
  | cons tipo resto ih =>
    intro fs out hall
    have h0 : dirExists fs [materia, tipo] = true := hall _ (List.mem_cons_self _ _)
    rw [crearTiposAux, mkdir_ok_of_dirExists h0]
    exact ih fs _ (fun t ht => hall t (List.mem_cons_of_mem _ ht))

lemma crearEstructura_mono (ep : List (String × List String)) :
    ∀ (ms : List String) (fs : Fs) (out : List String),
    (crearEstructuraAux ep fs out ms).error = none →
    ∀ q, dirExists fs q = true →
      dirExists (crearEstructuraAux ep fs out ms).fs q = true := by
  intro ms
  induction ms with
  | nil => intro fs out _ q hq; exact hq
  | cons m resto ih =>
    intro fs out herr q hq
    rcases hmk : mkdirExistOk fs [m] with e | fs1
    · rw [crearEstructuraAux, hmk] at herr
      simp at herr
    · rw [crearEstructuraAux, hmk] at herr ⊢
      rcases hterr : (crearTiposAux m fs1 out (obtener_carpetas_para_materia ep m)).error
        with _ | e
      · simp only [hterr] at herr ⊢
        obtain ⟨_, _, _, hmono1, _⟩ := mkdir_ok_inv hmk
        obtain ⟨_, _, _, hmono2, _⟩ :=
          crearTipos_ok_inv m (obtener_carpetas_para_materia ep m) fs1 out hterr
        exact ih _ _ herr q (hmono2 q (hmono1 q hq))
      · simp [hterr] at herr

lemma crearEstructura_ok_inv (ep : List (String × List String)) :
    ∀ (ms : List String) (fs : Fs) (out : List String),
    (crearEstructuraAux ep fs out ms).error = none →
    (∀ m ∈ ms, dirExists (crearEstructuraAux ep fs out ms).fs [m] = true ∧
        ∀ t ∈ obtener_carpetas_para_materia ep m,
          dirExists (crearEstructuraAux ep fs out ms).fs [m, t] = true) := by
  intro ms
  induction ms with
  | nil => intro fs out _; simp
  | cons m resto ih =>
    intro fs out herr
    rcases hmk : mkdirExistOk fs [m] with e | fs1
    · rw [crearEstructuraAux, hmk] at herr
      simp at herr
    · rw [crearEstructuraAux, hmk] at herr ⊢
      rcases hterr : (crearTiposAux m fs1 out (obtener_carpetas_para_materia ep m)).error
        with _ | e
      · simp only [hterr] at herr ⊢
        obtain ⟨hs, hr, hf, hmono, hall⟩ :=
          crearTipos_ok_inv m (obtener_carpetas_para_materia ep m) fs1 out hterr
        -- invariants of the remaining recursion
        have hrest := ih _ _ herr
        -- monotonicity of the remaining recursion, from its own success
        intro x hx
        rcases List.mem_cons.mp hx with h | h
        · subst h
          obtain ⟨hs1, hr1, hf1, hmono1, hp1⟩ := mkdir_ok_inv hmk
          constructor
          · exact crearEstructura_mono ep resto _ _ herr _ (hmono _ hp1)
          · intro t ht
            exact crearEstructura_mono ep resto _ _ herr _ (hall t ht)
        · exact hrest x h
      · simp [hterr] at herr

lemma crearEstructura_noop (ep : List (String × List String)) :
    ∀ (ms : List String) (fs : Fs) (out : List String),
    (∀ m ∈ ms, dirExists fs [m] = true ∧
        ∀ t ∈ obtener_carpetas_para_materia ep m, dirExists fs [m, t] = true) →
    (crearEstructuraAux ep fs out ms).fs = fs ∧
    (crearEstructuraAux ep fs out ms).error = none := by
  intro ms
  induction ms with
  | nil => intro fs out _; exact ⟨rfl, rfl⟩
  | cons m resto ih =>
    intro fs out hall
    obtain ⟨hm, htipos⟩ := hall m (List.mem_cons_self _ _)
    rw [crearEstructuraAux, mkdir_ok_of_dirExists hm]
    obtain ⟨htfs, hterr⟩ :=
      crearTipos_noop m (obtener_carpetas_para_materia ep m) fs out htipos
    dsimp only
    rw [hterr, htfs]
    exact ih fs _ (fun x hx => hall x (List.mem_cons_of_mem _ hx))

/-- C8: structure-builder idempotence.  When a `crear_estructura_carpetas` run
succeeds, running it again on the resulting filesystem raises no error and
leaves the folder set (indeed the whole filesystem state) unchanged, for every
subject and every allowed type of that subject. -/
theorem C8_crear_estructura_idempotente
    (materias ep : List (String × List String)) (fs : Fs)
    (h : (crear_estructura_carpetas materias ep fs).error = none) :
    (crear_estructura_carpetas materias ep
        ((crear_estructura_carpetas materias ep fs).fs)).fs
      = (crear_estructura_carpetas materias ep fs).fs ∧
    (crear_estructura_carpetas materias ep
        ((crear_estructura_carpetas materias ep fs).fs)).error = none := by
  have hall := crearEstructura_ok_inv ep (materias.map Prod.fst) fs
    ["Creando estructura de carpetas..."] h
  exact crearEstructura_noop ep (materias.map Prod.fst)
    (crear_estructura_carpetas materias ep fs).fs
    ["Creando estructura de carpetas..."] hall

/-- Witness for C8 at a concrete configuration: a first run on an empty root
succeeds, and the theorem then yields that the second run changes nothing. -/
theorem C8_crear_estructura_idempotente_witness :
    (crear_estructura_carpetas [("Base de Datos", ["sql"])] []
        ⟨"root", true, [], []⟩).error = none ∧
    ((crear_estructura_carpetas [("Base de Datos", ["sql"])] []
        ((crear_estructura_carpetas [("Base de Datos", ["sql"])] []
            ⟨"root", true, [], []⟩).fs)).fs
      = (crear_estructura_carpetas [("Base de Datos", ["sql"])] []
          ⟨"root", true, [], []⟩).fs ∧
     (crear_estructura_carpetas [("Base de Datos", ["sql"])] []
        ((crear_estructura_carpetas [("Base de Datos", ["sql"])] []
            ⟨"root", true, [], []⟩).fs)).error = none) :=
  ⟨by decide,
   C8_crear_estructura_idempotente [("Base de Datos", ["sql"])] []
     ⟨"root", true, [], []⟩ (by decide)⟩

/-- C5: policy exclusion.  For a top-level file whose subject and type both
resolve but whose type is not in the subject's allowed list, the organizer
step records the file as unplaced (appending its name to
`archivos_no_organizados` and printing the type-not-permitted reason — the
code's Spanish wording of "type not permitted for subject") and does not move
the file: the filesystem is left unchanged, so the file remains at the root. -/
theorem C5_tipo_no_permitido_no_mueve (cfg : Cfg) (st : EstadoOrg)
    (nombre m t : String)
    (h1 : identificar_materia cfg.materias nombre = some m)
    (h2 : obtener_tipo_archivo (sufijo nombre) = some t)
    (h3 : t ∉ obtener_carpetas_para_materia cfg.estructura_personalizada m) :
    procesarArchivo cfg st nombre =
      { st with
          no_organizados := st.no_organizados ++ [nombre],
          salida := st.salida ++
            [s!"  ⚠ {nombre} no organizado (\x27{m}\x27 no tiene carpeta \x27{t}\x27)"] } := by
  simp only [procesarArchivo]
  rw [h1, h2]
  simp [h3]

/-- Witness for C5: with subject "Mat" (keyword "x", allowed types only
"pdf"), the file `x.zip` resolves to subject "Mat" and type "comprimidos",
is recorded as unplaced with the type-not-permitted message, and stays put. -/
theorem C5_tipo_no_permitido_no_mueve_witness :
    procesarArchivo ⟨[("Mat", ["x"])], [("Mat", ["pdf"])]⟩
        ⟨⟨"root", true, [], [["x.zip"]]⟩, 0, [], []⟩ "x.zip" =
      ⟨⟨"root", true, [], [["x.zip"]]⟩, 0, ["x.zip"],
       ["  ⚠ x.zip no organizado (\x27Mat\x27 no tiene carpeta \x27comprimidos\x27)"]⟩ :=
  C5_tipo_no_permitido_no_mueve ⟨[("Mat", ["x"])], [("Mat", ["pdf"])]⟩
    ⟨⟨"root", true, [], [["x.zip"]]⟩, 0, [], []⟩ "x.zip" "Mat" "comprimidos"
    (by decide) (by decide) (by decide)

/-- C10: no collision renaming at the organize step.  When a top-level file
resolves to subject `m` and allowed type `t` and a file of the same name
already exists at `root/m/t/`, the move silently replaces the existing
destination file: afterwards the destination path occurs exactly once, the
source is gone, and no freshly suffixed name was introduced — every file of
the result already existed or is the plain destination path, unlike the
flattening step's `_<n>` renaming. -/
theorem C10_organizar_sobrescribe (cfg : Cfg) (st : EstadoOrg)
    (nombre m t : String)
    (h1 : identificar_materia cfg.materias nombre = some m)
    (h2 : obtener_tipo_archivo (sufijo nombre) = some t)
    (h3 : t ∈ obtener_carpetas_para_materia cfg.estructura_personalizada m)
    (h4 : [m, t] ∈ st.fs.dirs)
    (h5 : [m, t, nombre] ∈ st.fs.files)
    (h6 : [m, t, nombre] ∉ st.fs.dirs)
    (h7 : [nombre] ∈ st.fs.files) :
    procesarArchivo cfg st nombre =
      { st with
          fs := { st.fs with
                    files := ((st.fs.files.erase [nombre]).filter
                        (fun q => q ≠ [m, t, nombre])) ++ [[m, t, nombre]] },
          organizados := st.organizados + 1,
          salida := st.salida ++ [s!"  ✓ {nombre} → {m}/{t}/"] } ∧
    ((procesarArchivo cfg st nombre).fs.files.count [m, t, nombre] = 1) ∧
    (∀ p ∈ (procesarArchivo cfg st nombre).fs.files,
        p ∈ st.fs.files ∨ p = [m, t, nombre]) := by
  have hsrc : fileExists st.fs [nombre] = true := by
    simp [fileExists, h7]
  have hdst : dirExists st.fs [m, t, nombre] = false := by
    simp [dirExists, h6]
  have hpar : dirExists st.fs [m, t] = true := by
    simp [dirExists, h4]
  have hmove : shutilMove st.fs [nombre] [m, t, nombre] =
      .ok { st.fs with
              files := ((st.fs.files.erase [nombre]).filter
                  (fun q => q ≠ [m, t, nombre])) ++ [[m, t, nombre]] } := by
    simp [shutilMove, hsrc, hdst, hpar]
  have hmain : procesarArchivo cfg st nombre =
      { st with
          fs := { st.fs with
                    files := ((st.fs.files.erase [nombre]).filter
                        (fun q => q ≠ [m, t, nombre])) ++ [[m, t, nombre]] },
          organizados := st.organizados + 1,
          salida := st.salida ++ [s!"  ✓ {nombre} → {m}/{t}/"] } := by
    simp only [procesarArchivo]
    rw [h1, h2]
    simp only [if_pos h3, hmove]
  refine ⟨hmain, ?_, ?_⟩
  · rw [hmain]
    simp only [List.count_append]
    have h0 : ((st.fs.files.erase [nombre]).filter
        (fun q => q ≠ [m, t, nombre])).count [m, t, nombre] = 0 := by
      refine List.count_eq_zero.mpr ?_
      intro hmem
      have := (List.mem_filter.mp hmem).2
      simp at this
    rw [h0]
    simp
  · rw [hmain]
    intro p hp
    rcases List.mem_append.mp hp with h | h
    · exact Or.inl (List.mem_of_mem_erase (List.mem_of_mem_filter h))
    · exact Or.inr (List.mem_singleton.mp h)

/-- Witness for C10: organizing `n.pdf` into subject "Mat" / type "pdf" when
`Mat/pdf/n.pdf` already exists replaces the existing file in place. -/
theorem C10_organizar_sobrescribe_witness :
    procesarArchivo ⟨[("Mat", ["n"])], []⟩
        ⟨⟨"root", true, [["Mat"], ["Mat", "pdf"]],
          [["n.pdf"], ["Mat", "pdf", "n.pdf"]]⟩, 0, [], []⟩ "n.pdf" =
      ⟨⟨"root", true, [["Mat"], ["Mat", "pdf"]],
        [["Mat", "pdf", "n.pdf"]]⟩, 1, [], ["  ✓ n.pdf → Mat/pdf/"]⟩ ∧
    (procesarArchivo ⟨[("Mat", ["n"])], []⟩
        ⟨⟨"root", true, [["Mat"], ["Mat", "pdf"]],
          [["n.pdf"], ["Mat", "pdf", "n.pdf"]]⟩, 0, [], []⟩ "n.pdf").fs.files.count
        ["Mat", "pdf", "n.pdf"] = 1 := by
  have h := C10_organizar_sobrescribe ⟨[("Mat", ["n"])], []⟩
    ⟨⟨"root", true, [["Mat"], ["Mat", "pdf"]],
      [["n.pdf"], ["Mat", "pdf", "n.pdf"]]⟩, 0, [], []⟩ "n.pdf" "Mat" "pdf"
    (by decide) (by decide) (by decide) (by decide) (by decide) (by decide)
    (by decide)
  refine ⟨?_, h.2.1⟩
  rw [h.1]
  decide

lemma sufijoLibre_spec (fs : Fs) (base ext : String) :
    ∀ (fuel contador n : Nat), contador ≤ n → n < contador + fuel →
    (∀ k, contador ≤ k → k < n →
        pathExists fs [base ++ "_" ++ toString k ++ ext] = true) →
    pathExists fs [base ++ "_" ++ toString n ++ ext] = false →
    sufijoLibre fs base ext fuel contador =
      [base ++ "_" ++ toString n ++ ext] := by
  intro fuel
  induction fuel with
  | zero => intro contador n h1 h2 _ _; omega
  | succ fuel ih =>
    intro contador n h1 h2 hlow hfree
    by_cases hc : contador = n
    · subst hc
      rw [sufijoLibre]
      simp [hfree]
    · have hlt : contador < n := lt_of_le_of_ne h1 hc
      have hex := hlow contador le_rfl hlt
      rw [sufijoLibre]
      simp only [hex, if_true]
      exact ih (contador + 1) n hlt (by omega)
        (fun k hk1 hk2 => hlow k (by omega) hk2) hfree

/-- C4: flattening collision safety.  For a nested file moved up to the root
whose plain destination name already exists, the flattener appends `_<n>`
before the extension, with `n` the first free counter value counting from 1
for this source file (every smaller counter value from 1 is taken, the chosen
one is free); the move lands exactly at that suffixed name, the pre-existing
root file is left unchanged and still present, and the source file is gone
from its old place — both contents survive, no data loss. -/
theorem C4_aplanado_sufijo_sin_perdida
    (materias : List (String × List String)) (fs : Fs)
    (movidos : Nat) (salida : List String) (item : List String)
    (nombre base ext : String) (n : Nat)
    (hnombre : nombreDe item = nombre)
    (hlen : 2 ≤ item.length)
    (hsrc : item ∈ fs.files)
    (hnd : fs.files.Nodup)
    (hroot : fs.rootExists = true)
    (hskip : materias.any
        (fun mp => strContains (pathStr fs item.dropLast) mp.1) = false)
    (hsplit : splitStemSuffix nombre = (base, ext))
    (hcol : pathExists fs [nombre] = true)
    (hpre : [nombre] ∈ fs.files)
    (hn1 : 1 ≤ n)
    (hbound : n ≤ fs.files.length + fs.dirs.length + 2)
    (hlow : ∀ k, 1 ≤ k → k < n →
        pathExists fs [base ++ "_" ++ toString k ++ ext] = true)
    (hfree : pathExists fs [base ++ "_" ++ toString n ++ ext] = false) :
    moverUno materias (fs, movidos, salida) item =
      ({ fs with files :=
            fs.files.erase item ++ [[base ++ "_" ++ toString n ++ ext]] },
       movidos + 1,
       salida ++ [lineaMovido item [base ++ "_" ++ toString n ++ ext]]) ∧
    [nombre] ∈ (moverUno materias (fs, movidos, salida) item).1.files ∧
    [base ++ "_" ++ toString n ++ ext]
      ∈ (moverUno materias (fs, movidos, salida) item).1.files ∧
    item ∉ (moverUno materias (fs, movidos, salida) item).1.files := by
  have hsuf : sufijoLibre fs base ext (fs.files.length + fs.dirs.length + 2) 1 =
      [base ++ "_" ++ toString n ++ ext] :=
    sufijoLibre_spec fs base ext _ 1 n hn1 (by omega) hlow hfree
  have hdstfree : fileExists fs [base ++ "_" ++ toString n ++ ext] = false := by
    have := hfree
    unfold pathExists at this
    exact (Bool.or_eq_false_iff.mp this).2
  have hdstdir : dirExists fs [base ++ "_" ++ toString n ++ ext] = false := by
    have := hfree
    unfold pathExists at this
    exact (Bool.or_eq_false_iff.mp this).1
  have hsrc' : fileExists fs item = true := by simp [fileExists, hsrc]
  have hdstdir' : ([base ++ "_" ++ toString n ++ ext] : List String) ∉ fs.dirs := by
    intro hmem
    have htr : dirExists fs [base ++ "_" ++ toString n ++ ext] = true := by
      simp [dirExists, hmem]
    rw [htr] at hdstdir
    exact Bool.noConfusion hdstdir
  have hmove : shutilMove fs item [base ++ "_" ++ toString n ++ ext] =
      .ok { fs with files :=
              fs.files.erase item ++ [[base ++ "_" ++ toString n ++ ext]] } := by
    simp [shutilMove, hsrc', hdstdir', dirExists, hroot]
    intro a ha hcontra
    have hmem : a ∈ fs.files := List.mem_of_mem_erase ha
    rw [hcontra] at hmem
    have htr : fileExists fs [base ++ "_" ++ toString n ++ ext] = true := by
      simp [fileExists, hmem]
    rw [htr] at hdstfree
    exact Bool.noConfusion hdstfree
  have hmain : moverUno materias (fs, movidos, salida) item =
      ({ fs with files :=
            fs.files.erase item ++ [[base ++ "_" ++ toString n ++ ext]] },
       movidos + 1,
       salida ++ [lineaMovido item [base ++ "_" ++ toString n ++ ext]]) := by
    simp only [moverUno, hskip, Bool.false_eq_true, if_false, hnombre, hcol,
      if_true, hsplit, hsuf, hmove]
  have hne : ([nombre] : List String) ≠ item := by
    intro h
    have h2 := hlen
    rw [← h] at h2
    simp at h2
  have hne2 : item ≠ ([base ++ "_" ++ toString n ++ ext] : List String) := by
    intro h
    have h2 := hlen
    rw [h] at h2
    simp at h2
  refine ⟨hmain, ?_, ?_, ?_⟩
  · rw [hmain]
    exact List.mem_append_left _ ((List.mem_erase_of_ne hne).mpr hpre)
  · rw [hmain]
    exact List.mem_append_right _ (List.mem_singleton_self _)
  · rw [hmain]
    intro hcontra
    rcases List.mem_append.mp hcontra with h | h
    · exact hnd.not_mem_erase h
    · exact hne2 (List.mem_singleton.mp h)

/-- Witness for C4: the spec's scenario — `root/x.pdf` exists and nested
`root/sub/x.pdf` is flattened; the moved file lands at `x_1.pdf` and both
files are present afterwards. -/
theorem C4_aplanado_sufijo_sin_perdida_witness :
    moverUno [("Database", ["report"])]
        (⟨"root", true, [["sub"]], [["x.pdf"], ["sub", "x.pdf"]]⟩, 0, [])
        ["sub", "x.pdf"] =
      (⟨"root", true, [["sub"]], [["x.pdf"], ["x_1.pdf"]]⟩, 1,
       ["  ✓ Movido: sub/x.pdf → x_1.pdf"]) ∧
    ["x.pdf"] ∈ (moverUno [("Database", ["report"])]
        (⟨"root", true, [["sub"]], [["x.pdf"], ["sub", "x.pdf"]]⟩, 0, [])
        ["sub", "x.pdf"]).1.files ∧
    ["x_1.pdf"] ∈ (moverUno [("Database", ["report"])]
        (⟨"root", true, [["sub"]], [["x.pdf"], ["sub", "x.pdf"]]⟩, 0, [])
        ["sub", "x.pdf"]).1.files := by
  have h := C4_aplanado_sufijo_sin_perdida [("Database", ["report"])]
    ⟨"root", true, [["sub"]], [["x.pdf"], ["sub", "x.pdf"]]⟩ 0 []
    ["sub", "x.pdf"] "x.pdf" "x" ".pdf" 1
    (by decide) (by decide) (by decide) (by decide) (by decide) (by decide)
    (by decide) (by decide) (by decide) (by decide) (by decide)
    (by intro k hk1 hk2; omega) (by decide)
  refine ⟨?_, h.2.1, h.2.2.1⟩
  rw [h.1]
  decide

lemma organizar_forma_exito (cfg : Cfg) (fs : Fs) (mover crear : Bool) :
    (organizar_archivos cfg fs mover crear).error ≠ none ∨
    ∃ pre, (organizar_archivos cfg fs mover crear).salida =
      pre ++ resumenLines
        (organizar_archivos cfg fs mover crear).archivos_organizados
        (organizar_archivos cfg fs mover crear).archivos_no_organizados := by
  unfold organizar_archivos
  dsimp only
  split
  · left; simp
  · (repeat' split) <;>
      first
        | (left; simp; done)
        | (right; exact ⟨_, rfl⟩)

/-- C6 counterexample: the organize operation does not return structured
results with formatting left to a presentation layer.  On a run with two
files unplaced for different reasons, the recorded unplaced data is the bare
name list `["x.zip", "y.qqq"]` — no (filename, reason) pairs — while the
reasons and the formatted counts appear only in the console lines the core
prints itself (the Python method returns `None`). -/
theorem C6_contraejemplo_registro_sin_motivo :
    (organizar_archivos ⟨[("Mat", ["x"])], [("Mat", ["pdf"])]⟩
        ⟨"root", true, [], [["x.zip"], ["y.qqq"]]⟩ false false).archivos_no_organizados
      = ["x.zip", "y.qqq"] ∧
    "  Archivos organizados: 0" ∈
      (organizar_archivos ⟨[("Mat", ["x"])], [("Mat", ["pdf"])]⟩
        ⟨"root", true, [], [["x.zip"], ["y.qqq"]]⟩ false false).salida ∧
    "  Archivos sin organizar: 2" ∈
      (organizar_archivos ⟨[("Mat", ["x"])], [("Mat", ["pdf"])]⟩
        ⟨"root", true, [], [["x.zip"], ["y.qqq"]]⟩ false false).salida ∧
    "  ⚠ x.zip no organizado (\x27Mat\x27 no tiene carpeta \x27comprimidos\x27)" ∈
      (organizar_archivos ⟨[("Mat", ["x"])], [("Mat", ["pdf"])]⟩
        ⟨"root", true, [], [["x.zip"], ["y.qqq"]]⟩ false false).salida := by
  decide

/-- C6 amended: the organizer computes a count of organized files and a list
of unplaced file names per run, but prints them itself — every error-free run
ends its console output with the formatted summary block built from exactly
those two values — and the flattener's move and removal counts are likewise
printed inside the flattener (they are not part of any return value; reasons
for unplaced files appear only in printed lines). -/
theorem C6_enmendada_resumen_impreso_por_el_nucleo :
    (∀ (cfg : Cfg) (fs : Fs) (mover crear : Bool),
        (organizar_archivos cfg fs mover crear).error = none →
        ∃ pre, (organizar_archivos cfg fs mover crear).salida =
          pre ++ resumenLines
            (organizar_archivos cfg fs mover crear).archivos_organizados
            (organizar_archivos cfg fs mover crear).archivos_no_organizados) ∧
    (∀ (materias : List (String × List String)) (fs : Fs),
        s!"\n  Archivos movidos: {(mover_archivos_de_subcarpetas materias fs).archivos_movidos}"
          ∈ (mover_archivos_de_subcarpetas materias fs).salida ∧
        s!"  Carpetas eliminadas: {(mover_archivos_de_subcarpetas materias fs).carpetas_eliminadas}"
          ∈ (mover_archivos_de_subcarpetas materias fs).salida) := by
  constructor
  · intro cfg fs mover crear herr
    rcases organizar_forma_exito cfg fs mover crear with h | h
    · exact absurd herr h
    · exact h
  · intro materias fs
    constructor
    · simp [mover_archivos_de_subcarpetas]
    · simp [mover_archivos_de_subcarpetas]

/-- A concrete flattener run on an empty root, used by witnesses. -/
def moverEjemplo : ResMover :=
  mover_archivos_de_subcarpetas [] ⟨"root", true, [], []⟩

/-- Witness for C6 amended, at a concrete error-free run and a concrete
flattener run. -/
theorem C6_enmendada_resumen_impreso_por_el_nucleo_witness :
    (organizar_archivos ⟨[("Mat", ["x"])], [("Mat", ["pdf"])]⟩
        ⟨"root", true, [], [["x.zip"]]⟩ false false).error = none ∧
    (∃ pre, (organizar_archivos ⟨[("Mat", ["x"])], [("Mat", ["pdf"])]⟩
        ⟨"root", true, [], [["x.zip"]]⟩ false false).salida =
      pre ++ resumenLines
        (organizar_archivos ⟨[("Mat", ["x"])], [("Mat", ["pdf"])]⟩
          ⟨"root", true, [], [["x.zip"]]⟩ false false).archivos_organizados
        (organizar_archivos ⟨[("Mat", ["x"])], [("Mat", ["pdf"])]⟩
          ⟨"root", true, [], [["x.zip"]]⟩ false false).archivos_no_organizados) ∧
    s!"\n  Archivos movidos: {moverEjemplo.archivos_movidos}"
      ∈ moverEjemplo.salida :=
  ⟨by decide,
   (C6_enmendada_resumen_impreso_por_el_nucleo.1 ⟨[("Mat", ["x"])], [("Mat", ["pdf"])]⟩
     ⟨"root", true, [], [["x.zip"]]⟩ false false (by decide)),
   (C6_enmendada_resumen_impreso_por_el_nucleo.2 [] ⟨"root", true, [], []⟩).1⟩

/-- C7 counterexample: a non-existent root does NOT fail fast before any
component runs.  On a concrete run with a missing root, the flattener runs to
completion first (its banner and its closing count line are printed), the
structure builder then starts, and only its first `mkdir` raises — so the
configuration error surfaces from inside the second component, after the
first has already executed. -/
theorem C7_contraejemplo_sin_validacion_previa :
    (organizar_archivos ⟨[("Database", ["report"])], []⟩
        ⟨"root", false, [], []⟩ true true).error = some "FileNotFoundError" ∧
    "\nMoviendo archivos de subcarpetas a la carpeta principal..." ∈
      (organizar_archivos ⟨[("Database", ["report"])], []⟩
        ⟨"root", false, [], []⟩ true true).salida ∧
    "\n  Archivos movidos: 0" ∈
      (organizar_archivos ⟨[("Database", ["report"])], []⟩
        ⟨"root", false, [], []⟩ true true).salida ∧
    "Creando estructura de carpetas..." ∈
      (organizar_archivos ⟨[("Database", ["report"])], []⟩
        ⟨"root", false, [], []⟩ true true).salida := by
  decide

/-- C7 amended: the constructor performs no validation, so a non-existent
root is not detected before the components run: on a full run over a missing
root (with at least one configured subject) the flattener first completes as
a no-op — its final count line is printed — and the run then fails with the
unhandled `FileNotFoundError` from the structure builder's first `mkdir`.
Per-file move failures, by contrast, are caught locally: a file whose move
raises is recorded as unplaced with the move-error line and the dispatch
returns normally, so processing continues. -/
theorem C7_enmendada_error_dentro_de_componente :
    (∀ (cfg : Cfg) (rs : String), cfg.materias ≠ [] →
        (organizar_archivos cfg ⟨rs, false, [], []⟩ true true).error
          = some "FileNotFoundError" ∧
        "\n  Archivos movidos: 0" ∈
          (organizar_archivos cfg ⟨rs, false, [], []⟩ true true).salida) ∧
    (∀ (cfg : Cfg) (st : EstadoOrg) (nombre m t e : String),
        identificar_materia cfg.materias nombre = some m →
        obtener_tipo_archivo (sufijo nombre) = some t →
        t ∈ obtener_carpetas_para_materia cfg.estructura_personalizada m →
        shutilMove st.fs [nombre] [m, t, nombre] = .error e →
        procesarArchivo cfg st nombre =
          { st with
              no_organizados := st.no_organizados ++ [nombre],
              salida := st.salida ++ [s!"  ✗ Error moviendo {nombre}: {e}"] }) := by
  constructor
  · intro cfg rs hne
    rcases hm : cfg.materias with _ | ⟨m0, resto⟩
    · exact absurd hm hne
    · constructor
      · simp [organizar_archivos, mover_archivos_de_subcarpetas,
          ordenarPorProfundidadDesc, crear_estructura_carpetas, hm,
          crearEstructuraAux, mkdirExistOk, dirExists, fileExists]
      · simp [organizar_archivos, mover_archivos_de_subcarpetas,
          ordenarPorProfundidadDesc, crear_estructura_carpetas, hm,
          crearEstructuraAux, mkdirExistOk, dirExists, fileExists]
        decide
  · intro cfg st nombre m t e h1 h2 h3 hmove
    simp only [procesarArchivo]
    rw [h1, h2]
    simp only [if_pos h3, hmove]

/-- Witness for C7 amended: the missing-root scenario at a concrete
configuration, and a concrete caught move failure (structure building
disabled, so the destination folder is absent and the move raises). -/
theorem C7_enmendada_error_dentro_de_componente_witness :
    (organizar_archivos ⟨[("Database", ["report"])], []⟩
        ⟨"root", false, [], []⟩ true true).error = some "FileNotFoundError" ∧
    "\n  Archivos movidos: 0" ∈
      (organizar_archivos ⟨[("Database", ["report"])], []⟩
        ⟨"root", false, [], []⟩ true true).salida ∧
    procesarArchivo ⟨[("Mat", ["n"])], []⟩
        ⟨⟨"root", true, [], [["n.pdf"]]⟩, 0, [], []⟩ "n.pdf" =
      ⟨⟨"root", true, [], [["n.pdf"]]⟩, 0, ["n.pdf"],
       ["  ✗ Error moviendo n.pdf: FileNotFoundError"]⟩ := by
  have h1 := (C7_enmendada_error_dentro_de_componente.1
    ⟨[("Database", ["report"])], []⟩ "root" (by decide))
  have h2 := C7_enmendada_error_dentro_de_componente.2
    ⟨[("Mat", ["n"])], []⟩ ⟨⟨"root", true, [], [["n.pdf"]]⟩, 0, [], []⟩
    "n.pdf" "Mat" "pdf" "FileNotFoundError"
    (by decide) (by decide) (by decide) (by rfl)
  exact ⟨h1.1, h1.2, h2⟩

end Organizador
